import Mathlib

/-!
Shallow embedding of `src/monk_tf/dev.py` (MONK device layer, Python 2).

The module has three layers:
* `Device.cmd` (dev.py lines 106-121): ordered fallback over a list of
  connections; each connection attempt either returns the command output or
  raises; any raised exception is caught, logged, and the loop moves on; when
  the loop is exhausted a `CantHandleException` is raised whose message is
  `dev:'<name>',conns:'<list>':could not send cmd '<msg>'` (under Python 2
  `map(str, conns)` yields a list, so the middle field renders as
  `['conn0', 'conn1', ...]`).
* `Hydra` (lines 138-213): `update`, the freshness properties
  `latest_build` / `current_fw_version` / `has_newest_firmware` /
  `is_updated`, and `reset_config`.
* `DevelDevice` (lines 215-245): the no-op development variant.

External collaborators (connection transports, the Jenkins HTTP endpoint)
are modelled as oracles: each shell dispatch takes the list of
per-connection outcomes (`Except ε String`, with an arbitrary exception type
`ε`), and each HTTP query of the build metadata takes the parsed list of
build numbers (the `number` field of each entry of `builds` in the returned
JSON).  Every operation additionally reports its effects: the list of
messages dispatched through `Device.cmd` and the number of HTTP GET
requests made.
-/

namespace MonkTF

/-! ### Python string primitives -/

/-- Does `n` occur at the very front of `h`?  Helper for Python `in`. -/
def leadsWith : List Char → List Char → Bool
  | [], _ => true
  | _ :: _, [] => false
  | a :: as, b :: bs => a == b && leadsWith as bs

/-- Python `needle in hay` on lists of characters: `n` occurs contiguously
somewhere in `h`. -/
def occursIn (n : List Char) : List Char → Bool
  | [] => n.isEmpty
  | c :: t => leadsWith n (c :: t) || occursIn n t

/-- Python `needle in hay` on strings (code-point wise). -/
def strIn (needle hay : String) : Bool := occursIn needle.data hay.data

/-- Python `s.lower()` (the strings involved here are ASCII). -/
def pyLower (s : String) : String := ⟨s.data.map Char.toLower⟩

/-- Python `s[:n]` (slicing by code points). -/
def pyTake (s : String) (n : Nat) : String := ⟨s.data.take n⟩

/-- Python 2 `repr` of a plain string: surround with single quotes. -/
def pyQuote (s : String) : String := "\x27" ++ s ++ "\x27"

/-- Comma-space join, as in Python's rendering of a list's elements. -/
def joinComma : List String → String
  | [] => ""
  | [s] => s
  | s :: t :: rest => s ++ ", " ++ joinComma (t :: rest)

/-- Python 2 `str` of a list of strings: `['a', 'b']`. -/
def pyStrList (names : List String) : String :=
  "[" ++ joinComma (names.map pyQuote) ++ "]"

/-! ### Data model: connections and devices (dev.py lines 74-92) -/

/-- State of one connection as seen by this layer: its `str()` rendering and
whether it currently holds a live pexpect session (the `_exp` attribute that
`del self.conns[0]._exp` removes). -/
structure ConnSt where
  name : String
  hasSession : Bool
deriving Repr, DecidableEq

/-- A `Device`: display name plus the ordered connection list `self.conns`. -/
structure Device where
  name : String
  conns : List ConnSt
deriving Repr, DecidableEq

/-- Exceptions the device layer can raise (dev.py lines 51-65), together
with the Python builtins reachable from the modelled code paths:
`valueError` models `max()` on an empty sequence inside `latest_build`,
`indexError` models `self.conns[0]` on an empty connection list. -/
inductive Exn where
  | cantHandle (msg : String)
  | updateFailed (msg : String)
  | valueError
  | indexError
deriving Repr, DecidableEq

/-- Message of the `CantHandleException` raised when dispatch is exhausted
(dev.py lines 116-121):
`"dev:'{}',conns:'{}':could not send cmd '{}'".format(self.name, map(str, self.conns), msg)`. -/
def cantHandleMsg (d : Device) (msg : String) : String :=
  "dev:" ++ pyQuote d.name ++ ",conns:" ++
    pyQuote (pyStrList (d.conns.map ConnSt.name)) ++
    ":could not send cmd " ++ pyQuote msg

/-! ### Device.cmd — ordered fallback dispatch (dev.py lines 106-121) -/

/-- One pass of the `for connection in self.conns` loop, starting at
connection index `k`.  `outs` lists, in connection order, what each
connection's `cmd` call would do (return output, or raise an exception of
arbitrary type `ε`).  Returns the indices of the connections actually
invoked, in invocation order, and the output of the first success (if any). -/
def dispatchFrom {ε : Type} (k : Nat) : List (Except ε String) → List Nat × Option String
  | [] => ([], none)
  | Except.ok s :: _ => ([k], some s)
  | Except.error _ :: rest =>
    let p := dispatchFrom (k + 1) rest
    (k :: p.1, p.2)

/-- The whole loop, from the first connection. -/
def dispatch {ε : Type} (outs : List (Except ε String)) : List Nat × Option String :=
  dispatchFrom 0 outs

/-- `Device.cmd` (dev.py lines 94-121): return the first connection's
output, falling through failures; raise `CantHandleException` when every
connection failed (or there are none). -/
def Device.cmd {ε : Type} (d : Device) (msg : String) (outs : List (Except ε String)) :
    Except Exn String :=
  match (dispatch outs).2 with
  | some out => .ok out
  | none => .error (.cantHandle (cantHandleMsg d msg))

/-! ### Hydra: freshness check (dev.py lines 166-197) -/

/-- Maximum of the `number` fields, as computed by Python's `max` over the
generator in `latest_build` (dev.py line 176); `none` models the
`ValueError` that `max` raises on an empty sequence. -/
def maxBuild : List Nat → Option Nat
  | [] => none
  | b :: bs => some (bs.foldl max b)

/-- `Hydra.latest_build` (dev.py lines 171-176): fetch the Jenkins JSON and
return `str(max(build["number"] for build in ...))`.  The oracle `builds`
is the parsed list of build numbers. -/
def Hydra.latest_build (builds : List Nat) : Option String :=
  (maxBuild builds).map Nat.repr

/-- Shell command issued by `Hydra.current_fw_version` (dev.py line 182). -/
def fwQueryMsg : String :=
  "do-update --current-update-version | awk \x27\x7bprint $2\x7d\x27"

/-- `Hydra.has_newest_firmware` (dev.py lines 184-188): given the results of
the two queries, `self.latest_build in self.current_fw_version` — a plain
substring test. -/
def Hydra.has_newest_firmware (lb fw : String) : Bool := strIn lb fw

/-- Result of evaluating the `Hydra.is_updated` property (dev.py lines
190-197): query Jenkins (oracle `builds`), then dispatch the firmware
version query through `Device.cmd` (oracle `fwOuts`), then test containment.
An empty Jenkins build list raises `ValueError`; an exhausted dispatch
raises `CantHandleException`, which propagates. -/
def Hydra.is_updated {ε : Type} (d : Device) (builds : List Nat)
    (fwOuts : List (Except ε String)) : Except Exn Bool :=
  match Hydra.latest_build builds with
  | none => .error .valueError
  | some lb =>
    match Device.cmd d fwQueryMsg fwOuts with
    | .error e => .error e
    | .ok fw => .ok (Hydra.has_newest_firmware lb fw)

/-! ### Effects bookkeeping -/

/-- Observable traffic of an operation: the messages dispatched through
`Device.cmd` (in order) and the number of HTTP GET requests issued. -/
structure Effects where
  cmds : List String
  httpGets : Nat
deriving Repr, DecidableEq

/-- Sequential composition of effects. -/
def Effects.seq (a b : Effects) : Effects := ⟨a.cmds ++ b.cmds, a.httpGets + b.httpGets⟩

/-- Traffic generated by one evaluation of `is_updated`: always one HTTP GET
(`latest_build` is evaluated first); the firmware query is dispatched unless
`max` already raised. -/
def Hydra.is_updatedFx (builds : List Nat) : Effects :=
  match Hydra.latest_build builds with
  | none => ⟨[], 1⟩
  | some _ => ⟨[fwQueryMsg], 1⟩

/-- Combined result of an operation: the returned value or raised exception,
the device afterwards (session handles may have been dropped), and the
traffic generated. -/
structure OpResult (α : Type) where
  res : Except Exn α
  dev : Device
  fx : Effects
deriving Repr

/-! ### Hydra.update (dev.py lines 142-164) -/

/-- Default update artifact link `self._update_link` (dev.py line 167). -/
def updateLink : String :=
  "http://hydraip-integration.internal.dresearch-fe.de:8080/view/HIPOS/job/HydraIP_UpdateV3_USB_Stick/lastSuccessfulBuild/artifact/rel-hudson/hyp-updateV3-hikirk.zip"

/-- Expect pattern passed by `update` (dev.py line 149). -/
def updateExpect : String := "([lL]ogin: )|([cC]onnection\\sto\\s[^\\s]*\\sclosed\\.)"

/-- Combined update shell command (dev.py lines 147-149):
`"do-update -c && get-update {} && do-update".format(link if link else self._update_link)`.
Python's truthiness test means both `None` and the empty string fall back
to the default link. -/
def updateMsg (link : Option String) : String :=
  "do-update -c && get-update " ++
    (match link with
     | none => updateLink
     | some s => if s.isEmpty then updateLink else s) ++
    " && do-update"

/-- Oracle for one `Hydra.update` run: the Jenkins responses and
per-connection dispatch outcomes of each step, in program order, plus the
trailing matched text `self.conns[0].exp.after` observed after the update
command, and the exit status the update command reported on the device
(the code never reads it; it is carried so that its irrelevance can be
stated).  `builds3`/`fwOuts3` feed the re-queries that `update` performs
while rendering the `UpdateFailedException` message (dev.py lines 157-161
evaluate `self.latest_build` and `self.current_fw_version` again). -/
structure UpdateEnv (ε : Type) where
  builds1 : List Nat
  fwOuts1 : List (Except ε String)
  updOuts : List (Except ε String)
  exitStatus : Nat
  after1 : String
  builds2 : List Nat
  fwOuts2 : List (Except ε String)
  builds3 : List Nat
  fwOuts3 : List (Except ε String)
deriving Repr

/-- Same oracle with the reported exit status replaced. -/
def setExitStatus {ε : Type} (env : UpdateEnv ε) (n : Nat) : UpdateEnv ε :=
  ⟨env.builds1, env.fwOuts1, env.updOuts, n, env.after1,
    env.builds2, env.fwOuts2, env.builds3, env.fwOuts3⟩

/-- Message of the `UpdateFailedException` (dev.py lines 157-161):
`"build:{};fw:{};out:{}".format(self.latest_build, self.current_fw_version, out[:100])`. -/
def updateErrMsg (lb3 fw3 out : String) : String :=
  "build:" ++ lb3 ++ ";fw:" ++ fw3 ++ ";out:" ++ pyTake out 100

/-- `del self.conns[0]._exp` (dev.py line 152 / 210): drop the first
connection's live session handle; the connection list itself is untouched. -/
def resetSession0 (d : Device) : Device :=
  match d.conns with
  | [] => d
  | c0 :: rest => ⟨d.name, ⟨c0.name, false⟩ :: rest⟩

/-- Tail of `update` after the update command returned `out` (dev.py lines
153-162): sleep, re-evaluate `is_updated` on the possibly session-reset
device `d1`, and on a stale result raise `UpdateFailedException` whose
message re-queries `latest_build` and `current_fw_version` once more. -/
def updateVerify {ε : Type} (d1 : Device) (env : UpdateEnv ε) (out : String)
    (fx : Effects) : OpResult Unit :=
  match Hydra.is_updated d1 env.builds2 env.fwOuts2 with
  | .error e => ⟨.error e, d1, fx.seq (Hydra.is_updatedFx env.builds2)⟩
  | .ok true => ⟨.ok (), d1, fx.seq (Hydra.is_updatedFx env.builds2)⟩
  | .ok false =>
    match Hydra.latest_build env.builds3 with
    | none => ⟨.error .valueError,
        d1, (fx.seq (Hydra.is_updatedFx env.builds2)).seq ⟨[], 1⟩⟩
    | some lb3 =>
      match Device.cmd d1 fwQueryMsg env.fwOuts3 with
      | .error e => ⟨.error e,
          d1, (fx.seq (Hydra.is_updatedFx env.builds2)).seq ⟨[fwQueryMsg], 1⟩⟩
      | .ok fw3 => ⟨.error (.updateFailed (updateErrMsg lb3 fw3 out)),
          d1, (fx.seq (Hydra.is_updatedFx env.builds2)).seq ⟨[fwQueryMsg], 1⟩⟩

/-- Body of the `if not self.is_updated` branch (dev.py lines 147-162):
dispatch the combined update command; inspect `self.conns[0].exp.after` and
drop the first connection's session iff it contains `"closed"`; then verify. -/
def updateRun {ε : Type} (d : Device) (link : Option String) (env : UpdateEnv ε)
    (fx1 : Effects) : OpResult Unit :=
  match Device.cmd d (updateMsg link) env.updOuts with
  | .error e => ⟨.error e, d, fx1.seq ⟨[updateMsg link], 0⟩⟩
  | .ok out =>
    match d.conns with
    | [] => ⟨.error .indexError, d, fx1.seq ⟨[updateMsg link], 0⟩⟩
    | _ :: _ =>
      updateVerify (if strIn "closed" env.after1 then resetSession0 d else d)
        env out (fx1.seq ⟨[updateMsg link], 0⟩)

/-- `Hydra.update` (dev.py lines 142-164).  Note the entry guard itself
evaluates `is_updated`, which queries Jenkins and dispatches the firmware
version command; the reported exit status of the update command is never
consulted anywhere. -/
def Hydra.update {ε : Type} (d : Device) (link : Option String) (env : UpdateEnv ε) :
    OpResult Unit :=
  match Hydra.is_updated d env.builds1 env.fwOuts1 with
  | .error e => ⟨.error e, d, Hydra.is_updatedFx env.builds1⟩
  | .ok true => ⟨.ok (), d, Hydra.is_updatedFx env.builds1⟩
  | .ok false => updateRun d link env (Hydra.is_updatedFx env.builds1)

/-! ### Hydra.reset_config (dev.py lines 199-213) -/

/-- Shell command issued by `reset_config` (dev.py line 203). -/
def resetMsg : String :=
  "rm -rf /var/lib/connman/* && hip-activate-config --reset && sync && halt -p"

/-- Expect pattern passed by `reset_config` (dev.py line 205). -/
def resetExpect : String :=
  "([lL]ogin:)|([cC]onnection\\sto\\s[^\\s]*\\sclosed\\.)|(Timeout.*\\.)|(INFO - LAN)"

/-- Oracle for one `reset_config` run: per-connection dispatch outcomes and
the trailing matched text of `self.conns[0]` afterwards. -/
structure ResetEnv (ε : Type) where
  outs : List (Except ε String)
  after : String
deriving Repr

/-- `Hydra.reset_config` (dev.py lines 199-213).  There is no try/except
around the `cmd` call: a `CantHandleException` from dispatch propagates to
the caller.  On success, the first connection's session is dropped iff
`"login"` does not occur in `self.conns[0].exp.after.lower()`. -/
def Hydra.reset_config {ε : Type} (d : Device) (env : ResetEnv ε) : OpResult Unit :=
  match Device.cmd d resetMsg env.outs with
  | .error e => ⟨.error e, d, ⟨[resetMsg], 0⟩⟩
  | .ok _ =>
    match d.conns with
    | [] => ⟨.error .indexError, d, ⟨[resetMsg], 0⟩⟩
    | _ :: _ =>
      ⟨.ok (),
        if strIn "login" (pyLower env.after) then d else resetSession0 d,
        ⟨[resetMsg], 0⟩⟩

/-! ### DevelDevice — the no-op variant (dev.py lines 215-245) -/

/-- `DevelDevice.latest_build` (dev.py lines 228-230): fixed sentinel. -/
def DevelDevice.latest_build : String := "not supported"

/-- `DevelDevice.current_fw_version` (dev.py lines 232-234): fixed sentinel. -/
def DevelDevice.current_fw_version : String := "not supported"

/-- `DevelDevice.has_newest_firmware` (dev.py lines 236-238): fixed sentinel. -/
def DevelDevice.has_newest_firmware : String := "not supported"

/-- `DevelDevice.is_updated` (dev.py lines 240-242): always `True`. -/
def DevelDevice.is_updated : Bool := true

/-- `DevelDevice.update` (dev.py lines 222-223): `pass`. -/
def DevelDevice.update (d : Device) (_link : Option String) : OpResult Unit :=
  ⟨.ok (), d, ⟨[], 0⟩⟩

/-- `DevelDevice.reset_config` (dev.py lines 244-245): `pass`. -/
def DevelDevice.reset_config (d : Device) : OpResult Unit :=
  ⟨.ok (), d, ⟨[], 0⟩⟩

/-! ### Spec-side helper: explicit index ranges for invocation traces -/

/-- The list `[k, k+1, ..., k+n-1]`. -/
def rangeFrom (k : Nat) : Nat → List Nat
  | 0 => []
  | n + 1 => k :: rangeFrom (k + 1) n

/-! ### Concrete sample inputs used by witnesses and counterexamples -/

/-- Sample two-connection device. -/
def devC1 : Device := ⟨"Device", [⟨"ssh", true⟩, ⟨"serial", true⟩]⟩

/-- Sample single-connection Hydra. -/
def devH : Device := ⟨"Hydra", [⟨"ssh", true⟩]⟩

/-- Dispatch outcomes: first connection fails, second succeeds. -/
def outsC1 : List (Except String String) := [.error "ssh down", .ok "file.txt"]

/-- Dispatch outcomes: every connection fails. -/
def outsC2 : List (Except String String) := [.error "timeout", .error "refused"]

/-- Dispatch outcomes: two failures before a success. -/
def outsC10 : List (Except String String) := [.error "e0", .error "e1", .ok "OUT3"]

/-- Update run in which the device reports exit status 7 for the update
command, yet the post-sleep freshness re-check reads true. -/
def envC3 : UpdateEnv String :=
  ⟨[5], [.ok "v0"], [.ok "update done"], 7, "Connection to hydra closed.",
    [5], [.ok "rel-5"], [5], [.ok "rel-5"]⟩

/-- Update run whose post-sleep freshness re-check still reads false. -/
def envW3 : UpdateEnv String :=
  ⟨[5], [.ok "v0"], [.ok "update done"], 0, "Connection to hydra closed.",
    [5], [.ok "v0"], [5], [.ok "v0"]⟩

/-- Update run in which the device is already up to date. -/
def envC4 : UpdateEnv String :=
  ⟨[42], [.ok "rel-42-signed"], [], 0, "", [], [], [], []⟩

/-- Successful update run whose trailing matched text is a login banner
(no `"closed"`), so the code never resets any session. -/
def envC7 : UpdateEnv String :=
  ⟨[5], [.ok "v0"], [.ok "update done"], 0, "hydra login: ",
    [5], [.ok "rel-5"], [], []⟩

/-- Successful update run whose trailing matched text contains `"closed"`. -/
def envW7 : UpdateEnv String :=
  ⟨[5], [.ok "v0"], [.ok "update done"], 0, "Connection to hydra closed.",
    [5], [.ok "rel-5"], [], []⟩

/-- Reset run in which the only connection fails. -/
def renvC5 : ResetEnv String := ⟨[.error "timeout"], ""⟩

/-- Firmware query outcome used by the freshness-check witness. -/
def fwOutsC6 : List (Except String String) := [.ok "rel-42-signed"]

/-! ## Lemmas about the Python substring test -/

theorem leadsWith_iff (n : List Char) : ∀ h : List Char,
    leadsWith n h = true ↔ ∃ r, h = n ++ r := by
  induction n with
  | nil => intro h; simp [leadsWith]
  | cons a as ih =>
    intro h
    cases h with
    | nil =>
      simp [leadsWith]
    | cons b bs =>
      simp only [leadsWith, Bool.and_eq_true, beq_iff_eq, ih bs]
      constructor
      · rintro ⟨hab, r, hr⟩
        exact ⟨r, by rw [hab, hr]; rfl⟩
      · rintro ⟨r, hr⟩
        rw [List.cons_append] at hr
        injection hr with h1 h2
        exact ⟨h1.symm, r, h2⟩

theorem occursIn_iff (n : List Char) : ∀ h : List Char,
    occursIn n h = true ↔ ∃ l r, h = l ++ n ++ r := by
  intro h
  induction h with
  | nil =>
    simp only [occursIn, List.isEmpty_iff]
    constructor
    · rintro rfl; exact ⟨[], [], rfl⟩
    · rintro ⟨l, r, hr⟩
      rcases List.append_eq_nil.mp (List.append_eq_nil.mp hr.symm).1 with ⟨-, h2⟩
      exact h2
  | cons c t ih =>
    simp only [occursIn, Bool.or_eq_true, leadsWith_iff, ih]
    constructor
    · rintro (⟨r, hr⟩ | ⟨l, r, hr⟩)
      · exact ⟨[], r, by simpa using hr⟩
      · exact ⟨c :: l, r, by simp [hr]⟩
    · rintro ⟨l, r, hr⟩
      cases l with
      | nil => exact Or.inl ⟨r, by simpa using hr⟩
      | cons x xs =>
        rw [List.cons_append, List.cons_append] at hr
        injection hr with h1 h2
        exact Or.inr ⟨xs, r, by simpa using h2⟩

theorem strIn_iff (n h : String) :
    strIn n h = true ↔ ∃ l r, h.data = l ++ n.data ++ r :=
  occursIn_iff n.data h.data

theorem strIn_self (x : String) : strIn x x = true :=
  (strIn_iff x x).mpr ⟨[], [], by simp⟩

theorem strIn_app_left (x a b : String) (h : strIn x a = true) :
    strIn x (a ++ b) = true := by
  obtain ⟨l, r, hd⟩ := (strIn_iff x a).mp h
  exact (strIn_iff x (a ++ b)).mpr
    ⟨l, r ++ b.data, by rw [String.data_append, hd]; simp⟩

theorem strIn_app_right (x a b : String) (h : strIn x b = true) :
    strIn x (a ++ b) = true := by
  obtain ⟨l, r, hd⟩ := (strIn_iff x b).mp h
  exact (strIn_iff x (a ++ b)).mpr
    ⟨a.data ++ l, r, by rw [String.data_append, hd]; simp⟩

theorem strIn_pyQuote_of (y x : String) (h : strIn y x = true) :
    strIn y (pyQuote x) = true :=
  strIn_app_left _ _ _ (strIn_app_right _ _ _ h)

theorem strIn_pyQuote (x : String) : strIn x (pyQuote x) = true :=
  strIn_pyQuote_of x x (strIn_self x)

theorem strIn_joinComma_quoted (x : String) : ∀ xs : List String, x ∈ xs →
    strIn x (joinComma (xs.map pyQuote)) = true := by
  intro xs
  induction xs with
  | nil => intro hx; cases hx
  | cons s tail ih =>
    intro hx
    cases tail with
    | nil =>
      rcases List.mem_singleton.mp hx with rfl
      simpa [joinComma] using strIn_pyQuote x
    | cons t rest =>
      rcases List.mem_cons.mp hx with rfl | hx'
      · simpa [joinComma] using
          strIn_app_left _ _ _ (strIn_app_left _ _ _ (strIn_pyQuote x))
      · simpa [joinComma] using strIn_app_right _ _ _ (ih hx')

theorem strIn_cantHandleMsg_name (d : Device) (msg : String) :
    strIn d.name (cantHandleMsg d msg) = true := by
  unfold cantHandleMsg
  exact strIn_app_left _ _ _ (strIn_app_left _ _ _ (strIn_app_left _ _ _
    (strIn_app_left _ _ _ (strIn_app_right _ _ _ (strIn_pyQuote d.name)))))

theorem strIn_cantHandleMsg_msg (d : Device) (msg : String) :
    strIn msg (cantHandleMsg d msg) = true := by
  unfold cantHandleMsg
  exact strIn_app_right _ _ _ (strIn_pyQuote msg)

theorem strIn_cantHandleMsg_conn (d : Device) (msg : String) (c : ConnSt)
    (hc : c ∈ d.conns) : strIn c.name (cantHandleMsg d msg) = true := by
  unfold cantHandleMsg
  have h1 : strIn c.name (pyStrList (d.conns.map ConnSt.name)) = true := by
    unfold pyStrList
    exact strIn_app_left _ _ _ (strIn_app_right _ _ _
      (strIn_joinComma_quoted c.name _ (List.mem_map_of_mem ConnSt.name hc)))
  exact strIn_app_left _ _ _ (strIn_app_left _ _ _ (strIn_app_right _ _ _
    (strIn_pyQuote_of c.name _ h1)))

/-! ## Lemmas about the dispatch loop -/

theorem mem_rangeFrom (j : Nat) : ∀ n k : Nat, j ∈ rangeFrom k n ↔ k ≤ j ∧ j < k + n := by
  intro n
  induction n with
  | zero => intro k; simp [rangeFrom]
  | succ m ih =>
    intro k
    simp only [rangeFrom, List.mem_cons, ih (k + 1)]
    omega

theorem dispatchFrom_all_fail {ε : Type} (outs : List (Except ε String)) :
    ∀ k : Nat, (∀ o ∈ outs, ∃ e, o = .error e) →
      dispatchFrom k outs = (rangeFrom k outs.length, none) := by
  induction outs with
  | nil => intro k _; simp [dispatchFrom, rangeFrom]
  | cons o rest ih =>
    intro k hall
    obtain ⟨e, he⟩ := hall o (List.mem_cons_self o rest)
    subst he
    have hrest : ∀ o ∈ rest, ∃ e, o = Except.error e :=
      fun o ho => hall o (List.mem_cons_of_mem _ ho)
    simp [dispatchFrom, ih (k + 1) hrest, rangeFrom]

theorem dispatchFrom_first_ok {ε : Type} (outs : List (Except ε String)) :
    ∀ (k i : Nat) (hi : i < outs.length) (s : String),
      outs.get ⟨i, hi⟩ = .ok s →
      (∀ j (hj : j < outs.length), j < i → ∃ e, outs.get ⟨j, hj⟩ = .error e) →
      dispatchFrom k outs = (rangeFrom k (i + 1), some s) := by
  induction outs with
  | nil => intro k i hi; exact absurd hi (by simp)
  | cons o rest ih =>
    intro k i hi s hs hfail
    cases i with
    | zero =>
      have ho : o = Except.ok s := by simpa using hs
      subst ho
      simp [dispatchFrom, rangeFrom]
    | succ i' =>
      obtain ⟨e, he⟩ := hfail 0 (by simp) (Nat.succ_pos i')
      have ho : o = Except.error e := by simpa using he
      subst ho
      have hi' : i' < rest.length := by simpa using hi
      have hs' : rest.get ⟨i', hi'⟩ = .ok s := by simpa using hs
      have hfail' : ∀ j (hj : j < rest.length), j < i' →
          ∃ e2, rest.get ⟨j, hj⟩ = .error e2 := by
        intro j hj hji
        have := hfail (j + 1) (by simpa using Nat.succ_lt_succ hj)
          (Nat.succ_lt_succ hji)
        simpa using this
      simp [dispatchFrom, ih (k + 1) i' hi' s hs' hfail', rangeFrom]

/-- Whatever the connection outcomes, `Device.cmd` either returns an output
or raises exactly the exhaustion `CantHandleException`. -/
theorem cmd_ok_or_cantHandle {ε : Type} (d : Device) (msg : String)
    (outs : List (Except ε String)) :
    (∃ s, Device.cmd d msg outs = .ok s) ∨
      Device.cmd d msg outs = .error (.cantHandle (cantHandleMsg d msg)) := by
  unfold Device.cmd
  cases (dispatch outs).2 with
  | none => exact Or.inr rfl
  | some s => exact Or.inl ⟨s, rfl⟩

/-- If all connections up to `m` (exclusive) fail, connection `m` is invoked. -/
theorem dispatchFrom_invokes {ε : Type} (outs : List (Except ε String)) :
    ∀ (k m : Nat) (_ : m < outs.length),
      (∀ j (hj : j < outs.length), j < m → ∃ e, outs.get ⟨j, hj⟩ = .error e) →
      (k + m) ∈ (dispatchFrom k outs).1 := by
  induction outs with
  | nil => intro k m hm; exact absurd hm (by simp)
  | cons o rest ih =>
    intro k m hm hfail
    cases m with
    | zero =>
      cases o with
      | ok s => simp [dispatchFrom]
      | error e => simp [dispatchFrom]
    | succ m' =>
      obtain ⟨e, he⟩ := hfail 0 (by simp) (Nat.succ_pos m')
      have ho : o = Except.error e := by simpa using he
      subst ho
      have hm' : m' < rest.length := by simpa using hm
      have hfail' : ∀ j (hj : j < rest.length), j < m' →
          ∃ e2, rest.get ⟨j, hj⟩ = .error e2 := by
        intro j hj hji
        have := hfail (j + 1) (by simpa using Nat.succ_lt_succ hj)
          (Nat.succ_lt_succ hji)
        simpa using this
      have hmem := ih (k + 1) m' hm' hfail'
      have hconv : k + (m' + 1) = (k + 1) + m' := by omega
      rw [hconv]
      simp only [dispatchFrom, List.mem_cons]
      exact Or.inr hmem

/-! ## Lemmas about the freshness maximum -/

theorem le_foldl_max (bs : List Nat) : ∀ a : Nat, a ≤ bs.foldl max a := by
  induction bs with
  | nil => intro a; exact Nat.le_refl a
  | cons b t ih =>
    intro a
    exact Nat.le_trans (Nat.le_max_left a b) (ih (max a b))

theorem foldl_max_mem (bs : List Nat) : ∀ a : Nat,
    bs.foldl max a = a ∨ bs.foldl max a ∈ bs := by
  induction bs with
  | nil => intro a; exact Or.inl rfl
  | cons b t ih =>
    intro a
    rcases ih (max a b) with h | h
    · rcases max_choice a b with hm | hm
      · exact Or.inl (by simp only [List.foldl]; rw [h, hm])
      · refine Or.inr ?_
        simp only [List.foldl]
        rw [h, hm]
        exact List.mem_cons_self b t
    · refine Or.inr (List.mem_cons_of_mem b ?_)
      simpa only [List.foldl] using h

theorem foldl_max_le_of_mem (bs : List Nat) : ∀ (a x : Nat), x ∈ bs →
    x ≤ bs.foldl max a := by
  induction bs with
  | nil => intro a x hx; cases hx
  | cons b t ih =>
    intro a x hx
    rcases List.mem_cons.mp hx with rfl | hx'
    · exact Nat.le_trans (Nat.le_max_right a x) (le_foldl_max t (max a x))
    · exact ih (max a b) x hx'

/-- `maxBuild` really is the maximum: a member that dominates all members. -/
theorem maxBuild_spec (builds : List Nat) (M : Nat) (h : maxBuild builds = some M) :
    M ∈ builds ∧ ∀ b ∈ builds, b ≤ M := by
  cases builds with
  | nil => cases h
  | cons b bs =>
    have hM : bs.foldl max b = M := by simpa [maxBuild] using h
    constructor
    · rcases foldl_max_mem bs b with h1 | h1
      · rw [← hM, h1]; exact List.mem_cons_self b bs
      · rw [← hM]; exact List.mem_cons_of_mem b h1
    · intro x hx
      rcases List.mem_cons.mp hx with rfl | hx'
      · rw [← hM]; exact le_foldl_max bs x
      · rw [← hM]; exact foldl_max_le_of_mem bs b x hx'

/-! ## Helper lemmas about the Hydra operations -/

theorem latest_build_eq (builds : List Nat) (M : Nat) (hb : maxBuild builds = some M) :
    Hydra.latest_build builds = some (Nat.repr M) := by
  unfold Hydra.latest_build
  rw [hb]
  rfl

theorem is_updated_eq {ε : Type} (d : Device) (builds : List Nat)
    (fwOuts : List (Except ε String)) (M : Nat) (fw : String)
    (hb : maxBuild builds = some M)
    (hf : Device.cmd d fwQueryMsg fwOuts = .ok fw) :
    Hydra.is_updated d builds fwOuts =
      .ok (Hydra.has_newest_firmware (Nat.repr M) fw) := by
  unfold Hydra.is_updated
  rw [latest_build_eq builds M hb, hf]

theorem is_updatedFx_eq (builds : List Nat) (M : Nat) (hb : maxBuild builds = some M) :
    Hydra.is_updatedFx builds = ⟨[fwQueryMsg], 1⟩ := by
  unfold Hydra.is_updatedFx
  rw [latest_build_eq builds M hb]

theorem is_updatedFx_of_ok {ε : Type} (d : Device) (builds : List Nat)
    (fwOuts : List (Except ε String)) (v : Bool)
    (h : Hydra.is_updated d builds fwOuts = .ok v) :
    Hydra.is_updatedFx builds = ⟨[fwQueryMsg], 1⟩ := by
  unfold Hydra.is_updated at h
  unfold Hydra.is_updatedFx
  cases hlb : Hydra.latest_build builds with
  | none => rw [hlb] at h; simp at h
  | some lb => rfl

theorem name_resetSession0 (d : Device) : (resetSession0 d).name = d.name := by
  unfold resetSession0
  rcases hc : d.conns with _ | ⟨c0, rest⟩ <;> simp [hc]

theorem conns_names_resetSession0 (d : Device) :
    (resetSession0 d).conns.map ConnSt.name = d.conns.map ConnSt.name := by
  unfold resetSession0
  rcases hc : d.conns with _ | ⟨c0, rest⟩ <;> simp [hc]

theorem cantHandleMsg_resetSession0 (d : Device) (msg : String) :
    cantHandleMsg (resetSession0 d) msg = cantHandleMsg d msg := by
  unfold cantHandleMsg
  rw [name_resetSession0, conns_names_resetSession0]

theorem cmd_resetSession0 {ε : Type} (d : Device) (msg : String)
    (outs : List (Except ε String)) :
    Device.cmd (resetSession0 d) msg outs = Device.cmd d msg outs := by
  unfold Device.cmd
  rw [cantHandleMsg_resetSession0]

theorem is_updated_resetSession0 {ε : Type} (d : Device) (builds : List Nat)
    (fwOuts : List (Except ε String)) :
    Hydra.is_updated (resetSession0 d) builds fwOuts =
      Hydra.is_updated d builds fwOuts := by
  unfold Hydra.is_updated
  rw [cmd_resetSession0]

theorem updateVerify_dev {ε : Type} (d1 : Device) (env : UpdateEnv ε) (out : String)
    (fx : Effects) : (updateVerify d1 env out fx).dev = d1 := by
  unfold updateVerify
  (repeat' split) <;> rfl

theorem updateRun_dev {ε : Type} (d : Device) (link : Option String)
    (env : UpdateEnv ε) (fx1 : Effects) :
    (updateRun d link env fx1).dev = d ∨
      (updateRun d link env fx1).dev = resetSession0 d := by
  unfold updateRun
  cases hc : Device.cmd d (updateMsg link) env.updOuts with
  | error e => exact Or.inl (by simp)
  | ok out =>
    cases hd : d.conns with
    | nil => exact Or.inl (by simp [hd])
    | cons c0 rest =>
      by_cases hcl : strIn "closed" env.after1 = true
      · exact Or.inr (by simp [hd, hcl, updateVerify_dev])
      · exact Or.inl (by simp [hd, hcl, updateVerify_dev])

theorem update_dev {ε : Type} (d : Device) (link : Option String) (env : UpdateEnv ε) :
    (Hydra.update d link env).dev = d ∨
      (Hydra.update d link env).dev = resetSession0 d := by
  unfold Hydra.update
  cases h1 : Hydra.is_updated d env.builds1 env.fwOuts1 with
  | error e => exact Or.inl rfl
  | ok b =>
    cases b with
    | false => exact updateRun_dev d link env (Hydra.is_updatedFx env.builds1)
    | true => exact Or.inl rfl

theorem reset_config_dev {ε : Type} (d : Device) (env : ResetEnv ε) :
    (Hydra.reset_config d env).dev = d ∨
      (Hydra.reset_config d env).dev = resetSession0 d := by
  unfold Hydra.reset_config
  cases hc : Device.cmd d resetMsg env.outs with
  | error e => exact Or.inl rfl
  | ok s =>
    cases hd : d.conns with
    | nil => exact Or.inl (by simp [hd])
    | cons c0 rest =>
      by_cases hl : strIn "login" (pyLower env.after) = true
      · exact Or.inl (by simp [hd, hl])
      · exact Or.inr (by simp [hd, hl])

theorem cmd_all_fail_eq {ε : Type} (d : Device) (msg : String)
    (outs : List (Except ε String)) (hall : ∀ o ∈ outs, ∃ e, o = .error e) :
    Device.cmd d msg outs = .error (.cantHandle (cantHandleMsg d msg)) := by
  have h := dispatchFrom_all_fail outs 0 hall
  unfold Device.cmd dispatch
  rw [h]

theorem updateVerify_stale {ε : Type} (d1 : Device) (env : UpdateEnv ε)
    (out : String) (fx : Effects) (M2 M3 : Nat) (fw2 fw3 : String)
    (hb2 : maxBuild env.builds2 = some M2)
    (hf2 : Device.cmd d1 fwQueryMsg env.fwOuts2 = .ok fw2)
    (hstale2 : Hydra.has_newest_firmware (Nat.repr M2) fw2 = false)
    (hb3 : maxBuild env.builds3 = some M3)
    (hf3 : Device.cmd d1 fwQueryMsg env.fwOuts3 = .ok fw3) :
    (updateVerify d1 env out fx).res =
      .error (.updateFailed (updateErrMsg (Nat.repr M3) fw3 out)) := by
  have h2 : Hydra.is_updated d1 env.builds2 env.fwOuts2 = .ok false := by
    rw [is_updated_eq d1 env.builds2 env.fwOuts2 M2 fw2 hb2 hf2, hstale2]
  simp only [updateVerify, h2, latest_build_eq env.builds3 M3 hb3, hf3]

theorem updateVerify_fresh {ε : Type} (d1 : Device) (env : UpdateEnv ε)
    (out : String) (fx : Effects) (M2 : Nat) (fw2 : String)
    (hb2 : maxBuild env.builds2 = some M2)
    (hf2 : Device.cmd d1 fwQueryMsg env.fwOuts2 = .ok fw2)
    (hfresh2 : Hydra.has_newest_firmware (Nat.repr M2) fw2 = true) :
    (updateVerify d1 env out fx).res = .ok () := by
  have h2 : Hydra.is_updated d1 env.builds2 env.fwOuts2 = .ok true := by
    rw [is_updated_eq d1 env.builds2 env.fwOuts2 M2 fw2 hb2 hf2, hfresh2]
  simp only [updateVerify, h2]

/-- Replacing the reported exit status changes nothing: `Hydra.update` never
reads the `exitStatus` field of its oracle. -/
theorem update_setExitStatus {ε : Type} (d : Device) (link : Option String)
    (env : UpdateEnv ε) (n : Nat) :
    Hydra.update d link (setExitStatus env n) = Hydra.update d link env := rfl

/-! ## Claim theorems -/

/-- C1: for every connection list, if connection `i`'s cmd call succeeds and
the cmd calls of all connections before `i` fail, then `Device.cmd` returns
connection `i`'s output; the invocation trace is exactly `[0, 1, ..., i]` —
connections are tried in list order, in a single pass with no retries, and
no connection after `i` is ever invoked. -/
theorem cmd_ordered_first_success {ε : Type} (d : Device) (msg : String)
    (outs : List (Except ε String)) (i : Nat) (hi : i < outs.length) (s : String)
    (hs : outs.get ⟨i, hi⟩ = .ok s)
    (hfail : ∀ j (hj : j < outs.length), j < i → ∃ e, outs.get ⟨j, hj⟩ = .error e) :
    Device.cmd d msg outs = .ok s ∧
    (dispatch outs).1 = rangeFrom 0 (i + 1) ∧
    ∀ j ∈ (dispatch outs).1, j ≤ i := by
  have h := dispatchFrom_first_ok outs 0 i hi s hs hfail
  refine ⟨?_, ?_, ?_⟩
  · unfold Device.cmd dispatch
    rw [h]
  · unfold dispatch
    rw [h]
  · intro j hj
    unfold dispatch at hj
    rw [h] at hj
    have := (mem_rangeFrom j (i + 1) 0).mp hj
    omega

/-- Witness for C1 at a concrete input: the first connection fails, the
second succeeds with output `"file.txt"`, and exactly connections 0 and 1
are invoked, in order. -/
theorem cmd_ordered_first_success_wit :
    Device.cmd devC1 "ls -al" outsC1 = .ok "file.txt" ∧
      (dispatch outsC1).1 = rangeFrom 0 2 := by
  have h := cmd_ordered_first_success devC1 "ls -al" outsC1 1 (by decide)
    "file.txt" (by rfl)
    (by
      intro j hj hj1
      have hj0 : j = 0 := by omega
      subst hj0
      exact ⟨"ssh down", rfl⟩)
  exact ⟨h.1, h.2.1⟩

/-- C2: when every connection's cmd call fails — in particular for the empty
connection list — `Device.cmd` raises the `CantHandleException` whose message
contains the device name, the rendering of every connection, and the
original command text; and for arbitrary outcomes this exhaustion exception
is the only failure `Device.cmd` itself raises. -/
theorem cmd_exhausted_raises {ε : Type} (d : Device) (msg : String)
    (outs : List (Except ε String))
    (hall : ∀ o ∈ outs, ∃ e, o = .error e) :
    Device.cmd d msg outs = .error (.cantHandle (cantHandleMsg d msg)) ∧
    strIn d.name (cantHandleMsg d msg) = true ∧
    strIn msg (cantHandleMsg d msg) = true ∧
    (∀ c ∈ d.conns, strIn c.name (cantHandleMsg d msg) = true) ∧
    ∀ outs2 : List (Except ε String),
      (∃ s, Device.cmd d msg outs2 = .ok s) ∨
        Device.cmd d msg outs2 = .error (.cantHandle (cantHandleMsg d msg)) := by
  exact ⟨cmd_all_fail_eq d msg outs hall, strIn_cantHandleMsg_name d msg,
    strIn_cantHandleMsg_msg d msg,
    fun c hc => strIn_cantHandleMsg_conn d msg c hc,
    fun outs2 => cmd_ok_or_cantHandle d msg outs2⟩

/-- Witness for C2 at a concrete input: both connections fail, the raised
message contains the device name `"Device"`, the command `"ls"`, and the
connection rendering `"serial"`. -/
theorem cmd_exhausted_raises_wit :
    Device.cmd devC1 "ls" outsC2 = .error (.cantHandle (cantHandleMsg devC1 "ls")) ∧
    strIn "Device" (cantHandleMsg devC1 "ls") = true ∧
    strIn "ls" (cantHandleMsg devC1 "ls") = true ∧
    strIn "serial" (cantHandleMsg devC1 "ls") = true := by
  have h := cmd_exhausted_raises devC1 "ls" outsC2
    (by
      intro o ho
      simp only [outsC2, List.mem_cons, List.not_mem_nil, or_false] at ho
      rcases ho with rfl | rfl
      · exact ⟨"timeout", rfl⟩
      · exact ⟨"refused", rfl⟩)
  exact ⟨h.1, h.2.1, h.2.2.1,
    h.2.2.2.1 ⟨"serial", true⟩ (by simp [devC1])⟩

/-- C10: `Device.cmd` catches exceptions of an arbitrary type `ε` raised by
an individual connection's cmd call and proceeds to the next connection: if
every connection up to index `i` failed (with any exception values
whatsoever) and a connection `i+1` exists, connection `i+1` is invoked; and
whatever the outcomes, the only exception `Device.cmd` itself lets escape is
the final exhaustion `CantHandleException`. -/
theorem cmd_catches_all {ε : Type} (d : Device) (msg : String)
    (outs : List (Except ε String)) (i : Nat)
    (hfail : ∀ j (hj : j < outs.length), j ≤ i → ∃ e, outs.get ⟨j, hj⟩ = .error e)
    (hnext : i + 1 < outs.length) :
    (i + 1) ∈ (dispatch outs).1 ∧
    ((∃ s, Device.cmd d msg outs = .ok s) ∨
      Device.cmd d msg outs = .error (.cantHandle (cantHandleMsg d msg))) := by
  refine ⟨?_, cmd_ok_or_cantHandle d msg outs⟩
  have h := dispatchFrom_invokes outs 0 (i + 1) hnext
    (fun j hj hji => hfail j hj (by omega))
  simpa [dispatch] using h

/-- Witness for C10 at a concrete input: connection 0 fails, so connection 1
is invoked. -/
theorem cmd_catches_all_wit : (1 : Nat) ∈ (dispatch outsC10).1 :=
  (cmd_catches_all devC1 "ls" outsC10 0
    (by
      intro j hj hj0
      have hj' : j = 0 := by omega
      subst hj'
      exact ⟨"e0", rfl⟩)
    (by decide)).1

/-- C6: `Hydra.is_updated` (equivalently `has_newest_firmware`) reads true
iff the decimal rendering of the maximum build number across the returned
build records occurs as a contiguous substring of the current firmware
version string. -/
theorem is_updated_iff_substring {ε : Type} (d : Device) (builds : List Nat)
    (fwOuts : List (Except ε String)) (fw : String) (M : Nat)
    (hb : maxBuild builds = some M)
    (hf : Device.cmd d fwQueryMsg fwOuts = .ok fw) :
    M ∈ builds ∧ (∀ b ∈ builds, b ≤ M) ∧
    (Hydra.is_updated d builds fwOuts = .ok true ↔
      ∃ l r, fw.data = l ++ (Nat.repr M).data ++ r) ∧
    (Hydra.has_newest_firmware (Nat.repr M) fw = true ↔
      ∃ l r, fw.data = l ++ (Nat.repr M).data ++ r) := by
  obtain ⟨hm, hle⟩ := maxBuild_spec builds M hb
  have hres := is_updated_eq d builds fwOuts M fw hb hf
  have hiff : Hydra.has_newest_firmware (Nat.repr M) fw = true ↔
      ∃ l r, fw.data = l ++ (Nat.repr M).data ++ r := strIn_iff _ _
  refine ⟨hm, hle, ?_, hiff⟩
  rw [hres]
  constructor
  · intro h
    injection h with h'
    exact hiff.mp h'
  · intro h
    rw [hiff.mpr h]

/-- Witness for C6: latest build 42 among `[41, 42]`, firmware string
`"rel-42-signed"`: the device reports up to date iff `"42"` occurs in it. -/
theorem is_updated_iff_substring_wit :
    maxBuild [41, 42] = some 42 ∧
      (Hydra.is_updated devH [41, 42] fwOutsC6 = .ok true ↔
        ∃ l r, ("rel-42-signed" : String).data = l ++ (Nat.repr 42).data ++ r) := by
  have h := is_updated_iff_substring devH [41, 42] fwOutsC6 "rel-42-signed" 42
    (by decide) (by rfl)
  exact ⟨by decide, h.2.2.1⟩

/-- C8: the development no-op variant `DevelDevice`: `is_updated` is the
constant `True`, `update` and `reset_config` return successfully while
dispatching no shell command, issuing no HTTP request and leaving the
device untouched, and the freshness properties `latest_build`,
`current_fw_version` and `has_newest_firmware` are the fixed sentinel
`"not supported"`, computed without any shell or network I/O. -/
theorem devel_device_noop :
    DevelDevice.is_updated = true ∧
    (∀ (d : Device) (link : Option String),
      DevelDevice.update d link = ⟨.ok (), d, ⟨[], 0⟩⟩) ∧
    (∀ d : Device, DevelDevice.reset_config d = ⟨.ok (), d, ⟨[], 0⟩⟩) ∧
    DevelDevice.latest_build = "not supported" ∧
    DevelDevice.current_fw_version = "not supported" ∧
    DevelDevice.has_newest_firmware = "not supported" :=
  ⟨rfl, fun _ _ => rfl, fun _ => rfl, rfl, rfl, rfl⟩

/-- C9: the device-layer operations preserve the length and ordering of the
connection list: after any `Hydra.update` or `Hydra.reset_config` run the
final device's connections carry the same names in the same order as before
(a session reset only clears an individual connection's session handle); in
this model `Device.cmd` returns only the dispatched output and leaves the
device value untouched by construction. -/
theorem conns_order_stable {ε : Type} (d : Device) (link : Option String)
    (env : UpdateEnv ε) (renv : ResetEnv ε) :
    (Hydra.update d link env).dev.conns.map ConnSt.name = d.conns.map ConnSt.name ∧
    (Hydra.reset_config d renv).dev.conns.map ConnSt.name = d.conns.map ConnSt.name ∧
    (Hydra.update d link env).dev.conns.length = d.conns.length ∧
    (Hydra.reset_config d renv).dev.conns.length = d.conns.length := by
  have hu : (Hydra.update d link env).dev.conns.map ConnSt.name =
      d.conns.map ConnSt.name := by
    rcases update_dev d link env with h | h
    · rw [h]
    · rw [h, conns_names_resetSession0]
  have hr : (Hydra.reset_config d renv).dev.conns.map ConnSt.name =
      d.conns.map ConnSt.name := by
    rcases reset_config_dev d renv with h | h
    · rw [h]
    · rw [h, conns_names_resetSession0]
  refine ⟨hu, hr, ?_, ?_⟩
  · have := congrArg List.length hu
    simpa using this
  · have := congrArg List.length hr
    simpa using this

/-- Counterexample to C3 as stated: in the concrete run `envC3` the update
command reports the non-zero exit status 7, yet because the post-sleep
freshness re-check reads true, `Hydra.update` returns successfully instead
of raising an `UpdateFailedException`. -/
theorem update_ignores_exit_status_cex :
    envC3.exitStatus = 7 ∧ (Hydra.update devH none envC3).res = .ok () :=
  ⟨rfl, rfl⟩

/-- C3 amended: when the device is stale, `Hydra.update` decides failure
solely by the post-sleep freshness re-check: whenever that re-check reads
false it raises an `UpdateFailedException` whose message carries the
re-queried latest build, the re-queried firmware version and the first 100
characters of the captured command output — and it does so for every
reported exit status alike, since the code never examines the exit status. -/
theorem update_raises_iff_stale {ε : Type} (d : Device) (link : Option String)
    (env : UpdateEnv ε) (M1 M2 M3 : Nat) (fw1 fw2 fw3 out : String)
    (hb1 : maxBuild env.builds1 = some M1)
    (hf1 : Device.cmd d fwQueryMsg env.fwOuts1 = .ok fw1)
    (hstale1 : Hydra.has_newest_firmware (Nat.repr M1) fw1 = false)
    (hup : Device.cmd d (updateMsg link) env.updOuts = .ok out)
    (hconns : d.conns ≠ [])
    (hb2 : maxBuild env.builds2 = some M2)
    (hf2 : Device.cmd d fwQueryMsg env.fwOuts2 = .ok fw2)
    (hstale2 : Hydra.has_newest_firmware (Nat.repr M2) fw2 = false)
    (hb3 : maxBuild env.builds3 = some M3)
    (hf3 : Device.cmd d fwQueryMsg env.fwOuts3 = .ok fw3)
    (n : Nat) :
    (Hydra.update d link (setExitStatus env n)).res =
      .error (.updateFailed (updateErrMsg (Nat.repr M3) fw3 out)) := by
  rw [update_setExitStatus]
  have h1 : Hydra.is_updated d env.builds1 env.fwOuts1 = .ok false := by
    rw [is_updated_eq d env.builds1 env.fwOuts1 M1 fw1 hb1 hf1, hstale1]
  rcases hc : d.conns with _ | ⟨c0, rest⟩
  · exact absurd hc hconns
  simp only [Hydra.update, h1, updateRun, hup, hc]
  by_cases hcl : strIn "closed" env.after1 = true
  · simp only [hcl, if_true]
    exact updateVerify_stale (resetSession0 d) env out _ M2 M3 fw2 fw3 hb2
      (by rw [cmd_resetSession0]; exact hf2) hstale2 hb3
      (by rw [cmd_resetSession0]; exact hf3)
  · simp only [hcl, if_false]
    exact updateVerify_stale d env out _ M2 M3 fw2 fw3 hb2 hf2 hstale2 hb3 hf3

/-- Witness for the amended C3 at a concrete input: a stale device, a stale
re-check, and exit status replaced by 3 — the `UpdateFailedException` is
raised with the build/firmware/output message. -/
theorem update_raises_iff_stale_wit :
    (Hydra.update devH none (setExitStatus envW3 3)).res =
      .error (.updateFailed (updateErrMsg (Nat.repr 5) "v0" "update done")) :=
  update_raises_iff_stale devH none envW3 5 5 5 "v0" "v0" "v0" "update done"
    (by decide) (by rfl) (by decide) (by rfl) (by decide)
    (by decide) (by rfl) (by decide) (by decide) (by rfl) 3

/-- Counterexample to C4 as stated: with the device already updated
(`envC4`), `Hydra.update` returns without error but the entry guard itself
has dispatched one shell command through `Device.cmd` (the firmware version
query) and issued one HTTP request — not zero traffic. -/
theorem update_guard_traffic_cex :
    (Hydra.update devH none envC4).res = .ok () ∧
    (Hydra.update devH none envC4).fx.cmds.length = 1 ∧
    (Hydra.update devH none envC4).fx.httpGets = 1 :=
  ⟨rfl, rfl, rfl⟩

/-- C4 amended: when the freshness guard reads true, `update` returns
without error and dispatches no update command; the only traffic generated
is the guard's own freshness check — exactly one shell command (the
firmware version query) through `Device.cmd` and one HTTP request — and the
connection list is left untouched. -/
theorem update_fresh_guard_noop {ε : Type} (d : Device) (link : Option String)
    (env : UpdateEnv ε)
    (hg : Hydra.is_updated d env.builds1 env.fwOuts1 = .ok true) :
    Hydra.update d link env = ⟨.ok (), d, ⟨[fwQueryMsg], 1⟩⟩ := by
  have hfx := is_updatedFx_of_ok d env.builds1 env.fwOuts1 true hg
  simp only [Hydra.update, hg, hfx]

/-- Witness for the amended C4 at a concrete input. -/
theorem update_fresh_guard_noop_wit :
    Hydra.update devH none envC4 = ⟨.ok (), devH, ⟨[fwQueryMsg], 1⟩⟩ :=
  update_fresh_guard_noop devH none envC4 (by rfl)

/-- Counterexample to C5 as stated: with its single connection failing,
`Hydra.reset_config` raises the `CantHandleException` coming from `cmd`
instead of absorbing it. -/
theorem reset_config_raises_cex :
    (Hydra.reset_config devH renvC5).res =
      .error (.cantHandle (cantHandleMsg devH resetMsg)) := rfl

/-- C5 amended: `reset_config` does not absorb dispatch failures: whenever
every connection fails, the `CantHandleException` raised by `cmd` propagates
out of `reset_config` to the caller. -/
theorem reset_config_propagates {ε : Type} (d : Device) (env : ResetEnv ε)
    (hall : ∀ o ∈ env.outs, ∃ e, o = .error e) :
    (Hydra.reset_config d env).res =
      .error (.cantHandle (cantHandleMsg d resetMsg)) := by
  simp only [Hydra.reset_config, cmd_all_fail_eq d resetMsg env.outs hall]

/-- Witness for the amended C5 at a concrete input. -/
theorem reset_config_propagates_wit :
    (Hydra.reset_config devC1 ⟨[.error "t1", .error "t2"], ""⟩).res =
      .error (.cantHandle (cantHandleMsg devC1 resetMsg)) :=
  reset_config_propagates devC1 ⟨[.error "t1", .error "t2"], ""⟩
    (by
      intro o ho
      simp only [List.mem_cons, List.not_mem_nil, or_false] at ho
      rcases ho with rfl | rfl
      · exact ⟨"t1", rfl⟩
      · exact ⟨"t2", rfl⟩)

/-- Counterexample to C7 as stated: the run `envC7` succeeds (stale guard,
update command answered by connection 0, freshness re-check true), so a
connection was used — yet because the trailing matched text is a login
banner without `"closed"`, no session is reset at all: the device is
unchanged and its only connection still holds its session. -/
theorem update_no_disconnect_cex :
    (Hydra.update devH none envC7).res = .ok () ∧
    (Hydra.update devH none envC7).dev = devH ∧
    devH.conns.map ConnSt.hasSession = [true] ∧
    (dispatch envC7.updOuts).1 = [0] :=
  ⟨rfl, rfl, rfl, rfl⟩

/-- C7 amended: on the successful update path, `update` returns without
error and the only session handling performed is: the first connection's
session handle is dropped iff the substring `"closed"` occurs in
`conns[0]`'s trailing matched text; no other connection is ever
disconnected. -/
theorem update_success_session_reset {ε : Type} (d : Device) (link : Option String)
    (env : UpdateEnv ε) (M1 M2 : Nat) (fw1 fw2 out : String)
    (hb1 : maxBuild env.builds1 = some M1)
    (hf1 : Device.cmd d fwQueryMsg env.fwOuts1 = .ok fw1)
    (hstale1 : Hydra.has_newest_firmware (Nat.repr M1) fw1 = false)
    (hup : Device.cmd d (updateMsg link) env.updOuts = .ok out)
    (hconns : d.conns ≠ [])
    (hb2 : maxBuild env.builds2 = some M2)
    (hf2 : Device.cmd d fwQueryMsg env.fwOuts2 = .ok fw2)
    (hfresh2 : Hydra.has_newest_firmware (Nat.repr M2) fw2 = true) :
    (Hydra.update d link env).res = .ok () ∧
    (Hydra.update d link env).dev =
      (if strIn "closed" env.after1 then resetSession0 d else d) := by
  have h1 : Hydra.is_updated d env.builds1 env.fwOuts1 = .ok false := by
    rw [is_updated_eq d env.builds1 env.fwOuts1 M1 fw1 hb1 hf1, hstale1]
  rcases hc : d.conns with _ | ⟨c0, rest⟩
  · exact absurd hc hconns
  simp only [Hydra.update, h1, updateRun, hup, hc]
  by_cases hcl : strIn "closed" env.after1 = true
  · simp only [hcl, if_true]
    exact ⟨updateVerify_fresh (resetSession0 d) env out _ M2 fw2 hb2
        (by rw [cmd_resetSession0]; exact hf2) hfresh2,
      updateVerify_dev (resetSession0 d) env out _⟩
  · simp only [hcl, if_false]
    exact ⟨updateVerify_fresh d env out _ M2 fw2 hb2 hf2 hfresh2,
      updateVerify_dev d env out _⟩

/-- Witness for the amended C7 at a concrete input: the trailing matched
text contains `"closed"`, so the first connection's session is dropped. -/
theorem update_success_session_reset_wit :
    (Hydra.update devH none envW7).res = .ok () ∧
    (Hydra.update devH none envW7).dev =
      (if strIn "closed" envW7.after1 then resetSession0 devH else devH) :=
  update_success_session_reset devH none envW7 5 5 "v0" "rel-5" "update done"
    (by decide) (by rfl) (by decide) (by rfl) (by decide)
    (by decide) (by rfl) (by decide)

end MonkTF
